import Mathlib

/-!
Verification of the dataset/loader builder (`src/sade/datasets/loaders.py`,
function `get_dataloaders`) and the flow-configuration composer
(`src/sade/configs/flows/v2_flow_config.py`, function `get_config`) of the
`sade` repository, as a shallow embedding in Lean 4.

External collaborators (the file-enumeration routine `get_image_files_list`,
the filesystem, `os.path.abspath`) are abstracted into an `Env` record of
plain functions; machine-level concerns (tensors, multiprocessing) do not
affect any of the verified control flow and are not modelled.
-/

namespace Sade

/-- Models Python's `str.lower` on one character (ASCII case folding, which is
all that the names appearing in `loaders.py` use). -/
def charLower (c : Char) : Char :=
  if 65 ≤ c.toNat ∧ c.toNat ≤ 90 then Char.ofNat (c.toNat + 32) else c

/-- Models Python's `str.lower`. -/
def pyLower (s : String) : String := String.mk (s.data.map charLower)

/-- Boolean test that the first list begins with the second list. -/
def charsBegin : List Char → List Char → Bool
  | [], _ => true
  | _ :: _, [] => false
  | a :: as, b :: bs => a = b && charsBegin as bs

/-- Models Python's `s.startswith(pre)`; `re.match(pat, s)` for a literal
alternation pattern succeeds exactly when `s` starts with one alternative. -/
def pyStartsWith (s pre : String) : Bool := charsBegin pre.data s.data

/-- Models Python's substring containment test `needle in hay`. -/
def strContains (hay needle : String) : Bool :=
  decide (List.IsInfix needle.data hay.data)

/-- Models `re.match(r"(abcd|ibis)", s)` being truthy: `re.match` anchors at
the start of the string, so it succeeds iff `s` starts with an alternative. -/
def reMatchDataset (s : String) : Bool :=
  pyStartsWith s "abcd" || pyStartsWith s "ibis"

/-- Models `re.match(r"(tumor|lesion|ds-sa)", s)` being truthy. -/
def reMatchOod (s : String) : Bool :=
  pyStartsWith s "tumor" || pyStartsWith s "lesion" || pyStartsWith s "ds-sa"

/-- The `config.data` section of the configuration consumed by
`get_dataloaders`.  `cache_rate` is a pass-through fraction (never computed
on by this code), modelled as a rational. -/
structure DataConfig where
  dataset : String
  ood_ds : String
  splits_dir : String
  dir_path : String
  cache_rate : ℚ
deriving DecidableEq

/-- The `config.training` fields read by `get_dataloaders`. -/
structure TrainingConfig where
  batch_size : ℕ
deriving DecidableEq

/-- The `config.eval` fields read by `get_dataloaders`. -/
structure EvalConfig where
  batch_size : ℕ
deriving DecidableEq

/-- The slice of the configuration object read by `get_dataloaders`. -/
structure Config where
  data : DataConfig
  training : TrainingConfig
  eval : EvalConfig
deriving DecidableEq

/-- A file list is an ordered sequence of file-path records; the records are
opaque to `get_dataloaders` (it never inspects elements), so they are
modelled as strings. -/
abbrev FileList := List String

/-- The `(train, val, test)` triple returned by the file-enumeration
collaborator `get_image_files_list`.  The caller's own `is not None` checks
show each component may be absent, hence the `Option`. -/
abbrev FileTriple := Option FileList × Option FileList × Option FileList

/-- One invocation of the file-enumeration collaborator, recorded as its
argument triple `(dataset name, data directory, splits directory)`. -/
abbrev EnumCall := String × String × String

/-- A transform pipeline, identified by which builder produced it and from
which configuration (`get_train_transform(config)` etc. in the source). -/
inductive Transform where
  | train (config : Config)
  | val (config : Config)
  | tumor (config : Config)
  | lesion (config : Config)
deriving DecidableEq

/-- Models `monai.data.CacheDataset(file_list, transform=..., cache_rate=...,
num_workers=..., progress=...)` by its constructor arguments. -/
structure CacheDataset where
  data : FileList
  transform : Transform
  cache_rate : ℚ
  num_workers : ℕ
  progress : Bool
deriving DecidableEq

/-- The exact value of Python's `int(1e100)` (the float `1e100` rounded to
double precision, then truncated to an integer). -/
def INT_1E100 : ℕ :=
  10000000000000000159028911097599180468360808563945281389781327557747838772170381060813469985856815104

/-- Models `torch.utils.data.RandomSampler(data_source, replacement=True,
num_samples=int(1e100))` by its constructor arguments. -/
structure RandomSamplerS where
  data_source : CacheDataset
  replacement : Bool
  num_samples : ℕ
deriving DecidableEq

/-- The sampler produced by the `inf_sampler` factory
(`functools` partial application of `RandomSampler` with `replacement=True`
and `num_samples=int(1e100)`) applied to a dataset. -/
def mkInfSampler (ds : CacheDataset) : RandomSamplerS :=
  { data_source := ds, replacement := true, num_samples := INT_1E100 }

/-- Models `torch.utils.data.DataLoader` by the constructor arguments the
source passes (fields the source leaves at the library default are recorded
as that default: `shuffle := false`, `prefetch_factor := none` meaning not
passed, `persistent_workers := false`, `sampler := none`). -/
structure DataLoaderS where
  dataset : CacheDataset
  batch_size : ℕ
  shuffle : Bool
  num_workers : ℕ
  pin_memory : Bool
  prefetch_factor : Option ℕ
  persistent_workers : Bool
  sampler : Option RandomSamplerS
deriving DecidableEq

/-- Fatal errors `get_dataloaders` can raise: `AssertionError` (with the
optional message of the failing `assert`) and the unbound-local error Python
raises when a never-assigned local variable is evaluated. -/
inductive Err where
  | assertionError (msg : Option String)
  | nameError (name : String)
deriving DecidableEq

/-- The value returned by `get_dataloaders`: the pair of triples
`((train_loader, eval_loader, test_loader), (train_ds, eval_ds, test_ds))`,
with the two possibly-`None` training components as `Option`. -/
structure Output where
  train_loader : Option DataLoaderS
  eval_loader : DataLoaderS
  test_loader : DataLoaderS
  train_ds : Option CacheDataset
  eval_ds : CacheDataset
  test_ds : CacheDataset
deriving DecidableEq

instance {ε α : Type} [DecidableEq ε] [DecidableEq α] : DecidableEq (Except ε α) :=
  fun a b =>
    match a, b with
    | .ok x, .ok y =>
      if h : x = y then .isTrue (by rw [h]) else .isFalse (by simp [h])
    | .ok _, .error _ => .isFalse (by simp)
    | .error _, .ok _ => .isFalse (by simp)
    | .error x, .error y =>
      if h : x = y then .isTrue (by rw [h]) else .isFalse (by simp [h])

/-- A complete run of `get_dataloaders`: the file-enumeration invocations
made (in order), the diagnostics printed (in order), and either the returned
value or the fatal error. -/
structure RunResult where
  calls : List EnumCall
  prints : List String
  result : Except Err Output
deriving DecidableEq

/-- The ambient environment of `get_dataloaders`: the file-enumeration
collaborator `get_image_files_list(name, data_dir, splits_dir)` (defined in
`sade.datasets.filenames`, outside the sources under verification, so kept
abstract), the filesystem existence test `os.path.exists`, and
`os.path.abspath` (a pure path-normalisation function for a fixed working
directory). -/
structure Env where
  get_image_files_list : String → String → String → FileTriple
  path_exists : String → Bool
  abspath : String → String

/-- Models evaluating the expression `inf_sampler(ds) if infinite_sampler
else None` at a loader-construction site: the factory `inf_sampler` is only
evaluated under the `infinite_sampler` guard, and evaluating it while it was
never assigned raises Python's unbound-local error. -/
def samplerExpr (infinite_sampler inf_sampler_defined : Bool)
    (ds : CacheDataset) : Except Err (Option RandomSamplerS) :=
  if infinite_sampler then
    if inf_sampler_defined then .ok (some (mkInfSampler ds))
    else .error (.nameError "inf_sampler")
  else .ok none

/-- The file-list / test-transform resolution phase of `get_dataloaders`
(the `if ood_eval: ... elif evaluation: ... else: ...` cascade).  Returns
either the resolved `(train, val, test)` lists with the test transform and
the trace so far, or the trace together with the fatal error. -/
def resolveLists (env : Env) (config : Config) (evaluation ood_eval : Bool) :
    Except (List EnumCall × List String × Err)
      (Option FileList × Option FileList × Option FileList × Transform ×
        List EnumCall × List String) :=
  let splits_dir := config.data.splits_dir
  let data_dir_path := config.data.dir_path
  let dataset_name := config.data.dataset
  if ood_eval then
    let ood_dataset_name := pyLower config.data.ood_ds
    if strContains ood_dataset_name "lesion" then
      let dirname := "slicer_lesions/" ++ ood_dataset_name ++ "/" ++ dataset_name
      let ood_dir_path := env.abspath (data_dir_path ++ "/..") ++ "/" ++ dirname
      let printed := ["Loading ood samples from " ++ ood_dir_path]
      if env.path_exists ood_dir_path then
        let tOod := env.get_image_files_list ood_dataset_name ood_dir_path splits_dir
        let tIn := env.get_image_files_list dataset_name data_dir_path splits_dir
        .ok (none, tIn.2.2, tOod.2.2, Transform.lesion config,
          [(ood_dataset_name, ood_dir_path, splits_dir),
           (dataset_name, data_dir_path, splits_dir)], printed)
      else
        .error ([], printed, .assertionError (some (ood_dir_path ++ " does not exist")))
    else if ood_dataset_name = "tumor" then
      let tTest := env.get_image_files_list dataset_name data_dir_path splits_dir
      let tIn := env.get_image_files_list dataset_name data_dir_path splits_dir
      .ok (none, tIn.2.2, tTest.2.2, Transform.tumor config,
        [(dataset_name, data_dir_path, splits_dir),
         (dataset_name, data_dir_path, splits_dir)], [])
    else
      let tTest := env.get_image_files_list dataset_name data_dir_path splits_dir
      let tIn := env.get_image_files_list dataset_name data_dir_path splits_dir
      .ok (none, tIn.2.2, tTest.2.2, Transform.val config,
        [(dataset_name, data_dir_path, splits_dir),
         (dataset_name, data_dir_path, splits_dir)], [])
  else if evaluation then
    let t := env.get_image_files_list dataset_name data_dir_path splits_dir
    .ok (none, t.2.1, t.2.2, Transform.val config,
      [(dataset_name, data_dir_path, splits_dir)], [])
  else
    let t := env.get_image_files_list dataset_name data_dir_path splits_dir
    .ok (t.1, t.2.1, t.2.2, Transform.val config,
      [(dataset_name, data_dir_path, splits_dir)], [])

/-- The training data loader as the source constructs it: training batch
size, `pin_memory=True`, `prefetch_factor=2`, `persistent_workers` iff the
worker count is positive, `shuffle` left at the default `False`. -/
def mkTrainLoader (config : Config) (num_workers : ℕ) (ds : CacheDataset)
    (s : Option RandomSamplerS) : DataLoaderS :=
  { dataset := ds, batch_size := config.training.batch_size, shuffle := false,
    num_workers := num_workers, pin_memory := true, prefetch_factor := some 2,
    persistent_workers := decide (0 < num_workers), sampler := s }

/-- The evaluation/test data loaders as the source constructs them:
evaluation batch size, `shuffle=False`, `pin_memory` iff the worker count is
positive, `prefetch_factor` and `persistent_workers` left at defaults. -/
def mkEvalLoader (config : Config) (num_workers : ℕ) (ds : CacheDataset)
    (s : Option RandomSamplerS) : DataLoaderS :=
  { dataset := ds, batch_size := config.eval.batch_size, shuffle := false,
    num_workers := num_workers, pin_memory := decide (0 < num_workers),
    prefetch_factor := none, persistent_workers := false, sampler := s }

/-- The dataset- and loader-construction phase of `get_dataloaders`, after
the file lists passed the two `is not None` assertions.  `if train_ds:` in
the source is Python truthiness: false for `None` and for a dataset whose
file list is empty, so the training loader is built only for a non-empty
training dataset. -/
def buildOutput (config : Config) (num_workers : ℕ)
    (infinite_sampler inf_sampler_defined : Bool)
    (train_file_list : Option FileList) (val_file_list test_file_list : FileList)
    (test_transform : Transform) (calls : List EnumCall) (prints : List String) :
    RunResult :=
  let cache_rate := config.data.cache_rate
  let train_ds := train_file_list.map fun l =>
    CacheDataset.mk l (Transform.train config) cache_rate num_workers true
  let eval_ds : CacheDataset :=
    CacheDataset.mk val_file_list (Transform.val config) cache_rate num_workers true
  let test_ds : CacheDataset :=
    CacheDataset.mk test_file_list test_transform cache_rate num_workers true
  let trainLoaderRes : Except Err (Option DataLoaderS) :=
    match train_ds with
    | none => .ok none
    | some ds =>
      if ds.data.length = 0 then .ok none
      else
        match samplerExpr infinite_sampler inf_sampler_defined ds with
        | .error e => .error e
        | .ok s => .ok (some (mkTrainLoader config num_workers ds s))
  match trainLoaderRes with
  | .error e => { calls := calls, prints := prints, result := .error e }
  | .ok train_loader =>
    match samplerExpr infinite_sampler inf_sampler_defined eval_ds with
    | .error e => { calls := calls, prints := prints, result := .error e }
    | .ok se =>
      match samplerExpr infinite_sampler inf_sampler_defined test_ds with
      | .error e => { calls := calls, prints := prints, result := .error e }
      | .ok st =>
        let out : Output :=
          { train_loader := train_loader,
            eval_loader := mkEvalLoader config num_workers eval_ds se,
            test_loader := mkEvalLoader config num_workers test_ds st,
            train_ds := train_ds, eval_ds := eval_ds, test_ds := test_ds }
        { calls := calls, prints := prints, result := .ok out }

/-- Shallow embedding of `get_dataloaders` from `src/sade/datasets/loaders.py`:
the `inf_sampler` local is assigned only under `infinite_sampler`; the two
sanity-check assertions on the (lowered) dataset and OOD names; the
mode cascade (`resolveLists`); the `is not None` assertions on the resolved
validation and test lists; then dataset and loader construction
(`buildOutput`).  Default argument values in the source are
`evaluation=False, ood_eval=False, num_workers=6, infinite_sampler=False`. -/
def get_dataloaders (env : Env) (config : Config) (evaluation ood_eval : Bool)
    (num_workers : ℕ) (infinite_sampler : Bool) : RunResult :=
  let inf_sampler_defined := infinite_sampler
  if reMatchDataset (pyLower config.data.dataset) then
    if reMatchOod (pyLower config.data.ood_ds) then
      match resolveLists env config evaluation ood_eval with
      | .error (calls, prints, e) =>
        { calls := calls, prints := prints, result := .error e }
      | .ok (train_file_list, valOpt, testOpt, test_transform, calls, prints) =>
        match valOpt with
        | none => { calls := calls, prints := prints,
                    result := .error (.assertionError none) }
        | some val_file_list =>
          match testOpt with
          | none => { calls := calls, prints := prints,
                      result := .error (.assertionError none) }
          | some test_file_list =>
            buildOutput config num_workers infinite_sampler inf_sampler_defined
              train_file_list val_file_list test_file_list test_transform
              calls prints
    else { calls := [], prints := [], result := .error (.assertionError none) }
  else { calls := [], prints := [], result := .error (.assertionError none) }

/-- The directory from which lesion OOD samples are loaded, exactly as the
source assembles it: `abspath(data_dir_path + "/..")` joined with
`slicer_lesions/<lowered ood name>/<dataset name>`. -/
def lesionDirPath (env : Env) (config : Config) : String :=
  env.abspath (config.data.dir_path ++ "/..") ++ "/" ++
    ("slicer_lesions/" ++ pyLower config.data.ood_ds ++ "/" ++ config.data.dataset)

/-- The output `get_dataloaders` produces once the resolved lists passed the
assertions (proved equal to `buildOutput`'s result in `buildOutput_eq`). -/
def expectedOutput (config : Config) (nw : ℕ) (inf : Bool) (tfl : Option FileList)
    (v t : FileList) (ttr : Transform) : Output :=
  let train_ds := tfl.map fun l =>
    CacheDataset.mk l (Transform.train config) config.data.cache_rate nw true
  let eval_ds := CacheDataset.mk v (Transform.val config) config.data.cache_rate nw true
  let test_ds := CacheDataset.mk t ttr config.data.cache_rate nw true
  { train_loader :=
      match train_ds with
      | none => none
      | some ds =>
        if ds.data.length = 0 then none
        else some (mkTrainLoader config nw ds (if inf then some (mkInfSampler ds) else none)),
    eval_loader := mkEvalLoader config nw eval_ds (if inf then some (mkInfSampler eval_ds) else none),
    test_loader := mkEvalLoader config nw test_ds (if inf then some (mkInfSampler test_ds) else none),
    train_ds := train_ds, eval_ds := eval_ds, test_ds := test_ds }

/-- Boolean test for the unbound-local error. -/
def isNameErr (r : Except Err Output) : Bool :=
  match r with
  | .error (.nameError _) => true
  | _ => false

/-- One nested patch-geometry `ConfigDict` built by `get_config` in
`src/sade/configs/flows/v2_flow_config.py`. -/
structure PatchConfig where
  kernel_size : ℕ
  padding : ℕ
  stride : ℕ
deriving DecidableEq

/-- The `config.training` section of the flow configuration.  `extra` stands
for the remaining entries of the base `ConfigDict`, which `get_config` never
touches. -/
structure FlowTrainingSection where
  batch_size : ℕ
  log_freq : ℕ
  use_fp16 : Bool
  extra : List (String × String)
deriving DecidableEq

/-- The `config.eval` section of the flow configuration. -/
structure FlowEvalSection where
  batch_size : ℕ
  extra : List (String × String)
deriving DecidableEq

/-- The `config.flow` section of the flow configuration.  The two nested
patch sub-configurations are optional because `get_config` overwrites them
with freshly built `ConfigDict`s whether or not the base has them. -/
structure FlowSection where
  base_distribution : String
  num_blocks : ℕ
  context_embedding_size : ℕ
  use_global_context : Bool
  global_embedding_size : ℕ
  input_norm : Bool
  patch_batch_size : ℕ
  patches_per_train_step : ℕ
  training_kimg : ℕ
  local_patch_config : Option PatchConfig
  global_patch_config : Option PatchConfig
  extra : List (String × String)
deriving DecidableEq

/-- The whole flow configuration object: the three sections `get_config`
writes to, plus `extra` for every other section of the base configuration
(model, data, ...), which `get_config` never touches. -/
structure FlowFullConfig where
  training : FlowTrainingSection
  eval : FlowEvalSection
  flow : FlowSection
  extra : List (String × String)
deriving DecidableEq

/-- Shallow embedding of `get_config` from
`src/sade/configs/flows/v2_flow_config.py`.  Modelled from the spec: the
base configuration is produced by `get_default_config`
(`sade.configs.ve.biggan_config`), which is not among the sources under
verification; the spec describes it as a known-good fully populated base
configuration, so it is taken here as the parameter `base`. -/
def get_config (base : FlowFullConfig) : FlowFullConfig :=
  { base with
    training := { base.training with batch_size := 64, log_freq := 5, use_fp16 := true }
    eval := { base.eval with batch_size := 64 }
    flow := { base.flow with
      base_distribution := "multivariate_normal"
      num_blocks := 20
      context_embedding_size := 128
      use_global_context := true
      global_embedding_size := 512
      input_norm := false
      patch_batch_size := 32
      patches_per_train_step := 256
      training_kimg := 50
      local_patch_config := some { kernel_size := 3, padding := 1, stride := 1 }
      global_patch_config := some { kernel_size := 17, padding := 0, stride := 8 } } }

/-- A well-formed configuration: dataset `abcd`, OOD dataset `tumor`. -/
def cfgA : Config :=
  { data := { dataset := "abcd", ood_ds := "tumor", splits_dir := "/splits",
              dir_path := "/data/abcd", cache_rate := 1 },
    training := { batch_size := 2 }, eval := { batch_size := 3 } }

/-- A well-formed configuration with OOD dataset `lesion`. -/
def cfgLes : Config :=
  { data := { dataset := "ibis", ood_ds := "lesion", splits_dir := "/s",
              dir_path := "/data/ibis", cache_rate := 1 },
    training := { batch_size := 4 }, eval := { batch_size := 5 } }

/-- A configuration whose dataset name matches neither `abcd` nor `ibis`. -/
def cfgBad : Config :=
  { data := { dataset := "hcp", ood_ds := "tumor", splits_dir := "/s",
              dir_path := "/d", cache_rate := 1 },
    training := { batch_size := 1 }, eval := { batch_size := 1 } }

/-- An environment whose enumeration collaborator returns distinct non-empty
train/val/test lists, with every path existing. -/
def envA : Env :=
  { get_image_files_list := fun _ _ _ =>
      (some ["tr1", "tr2"], some ["va1"], some ["te1", "te2"]),
    path_exists := fun _ => true,
    abspath := fun s => s }

/-- An environment whose enumeration collaborator returns three empty (but
present) file lists. -/
def envEmpty : Env :=
  { get_image_files_list := fun _ _ _ => (some [], some [], some []),
    path_exists := fun _ => true, abspath := fun s => s }

/-- An environment returning an empty training list but non-empty val/test. -/
def envTrainEmpty : Env :=
  { get_image_files_list := fun _ _ _ => (some [], some ["v1"], some ["t1"]),
    path_exists := fun _ => true, abspath := fun s => s }

/-- An environment with pairwise distinct singleton components. -/
def envDistinct : Env :=
  { get_image_files_list := fun _ _ _ => (some ["a"], some ["b"], some ["c"]),
    path_exists := fun _ => true, abspath := fun s => s }

/-- An environment in which no filesystem path exists. -/
def envNoPath : Env :=
  { get_image_files_list := fun _ _ _ => (some ["a"], some ["b"], some ["c"]),
    path_exists := fun _ => false, abspath := fun s => s }

/-- The training dataset/loader pair used by the C8 witness. -/
def trainDsW : CacheDataset :=
  CacheDataset.mk ["tr1", "tr2"] (Transform.train cfgA) 1 2 true

/-- The training loader the C8 witness instantiates. -/
def trainLoaderW : DataLoaderS :=
  mkTrainLoader cfgA 2 trainDsW (some (mkInfSampler trainDsW))

/-- A concrete base configuration for the C9 counterexample, with a logging
frequency different from the one `get_config` writes. -/
def c9Base : FlowFullConfig :=
  { training := { batch_size := 1, log_freq := 100, use_fp16 := false, extra := [] },
    eval := { batch_size := 1, extra := [] },
    flow := { base_distribution := "normal", num_blocks := 1,
              context_embedding_size := 1, use_global_context := false,
              global_embedding_size := 1, input_norm := true,
              patch_batch_size := 1, patches_per_train_step := 1,
              training_kimg := 1, local_patch_config := none,
              global_patch_config := none, extra := [] },
    extra := [] }

lemma buildOutput_eq (config : Config) (nw : ℕ) (inf : Bool) (tfl : Option FileList)
    (v t : FileList) (ttr : Transform) (calls : List EnumCall) (prints : List String) :
    buildOutput config nw inf inf tfl v t ttr calls prints =
      { calls := calls, prints := prints,
        result := .ok (expectedOutput config nw inf tfl v t ttr) } := by
  unfold buildOutput expectedOutput samplerExpr
  cases inf <;> cases tfl <;> simp <;> split <;> rename_i heq <;>
    split at heq <;> simp_all

lemma get_dataloaders_eq (env : Env) (config : Config) (evaluation ood_eval : Bool)
    (nw : ℕ) (inf : Bool)
    (hd : reMatchDataset (pyLower config.data.dataset) = true)
    (ho : reMatchOod (pyLower config.data.ood_ds) = true) :
    get_dataloaders env config evaluation ood_eval nw inf =
      match resolveLists env config evaluation ood_eval with
      | .error (calls, prints, err) =>
        { calls := calls, prints := prints, result := .error err }
      | .ok (_, none, _, _, calls, prints) =>
        { calls := calls, prints := prints, result := .error (.assertionError none) }
      | .ok (_, some _, none, _, calls, prints) =>
        { calls := calls, prints := prints, result := .error (.assertionError none) }
      | .ok (tfl, some v, some t, ttr, calls, prints) =>
        { calls := calls, prints := prints,
          result := .ok (expectedOutput config nw inf tfl v t ttr) } := by
  unfold get_dataloaders
  simp only [hd, ho, if_true]
  cases hR : resolveLists env config evaluation ood_eval with
  | error p => obtain ⟨c, pr, er⟩ := p; rfl
  | ok r =>
    obtain ⟨tfl, vo, t_o, ttr, c, pr⟩ := r
    cases vo <;> cases t_o <;> simp [buildOutput_eq]

lemma resolveLists_training (env : Env) (config : Config) :
    resolveLists env config false false =
      .ok ((env.get_image_files_list config.data.dataset config.data.dir_path
              config.data.splits_dir).1,
           (env.get_image_files_list config.data.dataset config.data.dir_path
              config.data.splits_dir).2.1,
           (env.get_image_files_list config.data.dataset config.data.dir_path
              config.data.splits_dir).2.2,
           Transform.val config,
           [(config.data.dataset, config.data.dir_path, config.data.splits_dir)], []) :=
  rfl

lemma resolveLists_evaluation (env : Env) (config : Config) :
    resolveLists env config true false =
      .ok (none,
           (env.get_image_files_list config.data.dataset config.data.dir_path
              config.data.splits_dir).2.1,
           (env.get_image_files_list config.data.dataset config.data.dir_path
              config.data.splits_dir).2.2,
           Transform.val config,
           [(config.data.dataset, config.data.dir_path, config.data.splits_dir)], []) :=
  rfl

lemma resolveLists_ood_lesion (env : Env) (config : Config) (evaluation : Bool)
    (hl : strContains (pyLower config.data.ood_ds) "lesion" = true) :
    resolveLists env config evaluation true =
      (if env.path_exists (lesionDirPath env config) then
        .ok (none,
             (env.get_image_files_list config.data.dataset config.data.dir_path
                config.data.splits_dir).2.2,
             (env.get_image_files_list (pyLower config.data.ood_ds)
                (lesionDirPath env config) config.data.splits_dir).2.2,
             Transform.lesion config,
             [(pyLower config.data.ood_ds, lesionDirPath env config, config.data.splits_dir),
              (config.data.dataset, config.data.dir_path, config.data.splits_dir)],
             ["Loading ood samples from " ++ lesionDirPath env config])
      else
        .error ([], ["Loading ood samples from " ++ lesionDirPath env config],
          .assertionError (some (lesionDirPath env config ++ " does not exist")))) := by
  unfold resolveLists lesionDirPath
  simp [hl]

lemma resolveLists_ood_tumor (env : Env) (config : Config) (evaluation : Bool)
    (hl : strContains (pyLower config.data.ood_ds) "lesion" = false)
    (ht : pyLower config.data.ood_ds = "tumor") :
    resolveLists env config evaluation true =
      .ok (none,
           (env.get_image_files_list config.data.dataset config.data.dir_path
              config.data.splits_dir).2.2,
           (env.get_image_files_list config.data.dataset config.data.dir_path
              config.data.splits_dir).2.2,
           Transform.tumor config,
           [(config.data.dataset, config.data.dir_path, config.data.splits_dir),
            (config.data.dataset, config.data.dir_path, config.data.splits_dir)], []) := by
  unfold resolveLists
  simp [hl]
  simp [ht]

lemma resolveLists_ood_generic (env : Env) (config : Config) (evaluation : Bool)
    (hl : strContains (pyLower config.data.ood_ds) "lesion" = false)
    (ht : pyLower config.data.ood_ds ≠ "tumor") :
    resolveLists env config evaluation true =
      .ok (none,
           (env.get_image_files_list config.data.dataset config.data.dir_path
              config.data.splits_dir).2.2,
           (env.get_image_files_list config.data.dataset config.data.dir_path
              config.data.splits_dir).2.2,
           Transform.val config,
           [(config.data.dataset, config.data.dir_path, config.data.splits_dir),
            (config.data.dataset, config.data.dir_path, config.data.splits_dir)], []) := by
  unfold resolveLists
  simp [hl]
  simp [ht]

lemma resolveLists_no_train (env : Env) (config : Config) (evaluation ood_eval : Bool)
    (h : ood_eval = true ∨ evaluation = true)
    (tfl vo t_o : Option FileList) (ttr : Transform) (c : List EnumCall)
    (pr : List String)
    (hr : resolveLists env config evaluation ood_eval = .ok (tfl, vo, t_o, ttr, c, pr)) :
    tfl = none := by
  rcases h with h | h
  · subst h
    unfold resolveLists at hr
    simp at hr
    split at hr
    · split at hr <;> simp_all
    · split at hr <;> simp_all
  · subst h
    unfold resolveLists at hr
    cases ood_eval
    · simp at hr
      simp_all
    · simp at hr
      split at hr
      · split at hr <;> simp_all
      · split at hr <;> simp_all

lemma resolveLists_err_shape (env : Env) (config : Config) (evaluation ood_eval : Bool)
    (c : List EnumCall) (pr : List String) (er : Err)
    (h : resolveLists env config evaluation ood_eval = .error (c, pr, er)) :
    ∃ m, er = .assertionError (some m) := by
  unfold resolveLists at h
  dsimp only at h
  split at h
  · split at h
    · split at h
      · simp_all
      · simp only [Except.error.injEq, Prod.mk.injEq] at h
        exact ⟨_, h.2.2.symm⟩
    · split at h <;> simp_all
  · split at h <;> simp_all

lemma resolveLists_ood_val_component (env : Env) (config : Config) (evaluation : Bool)
    (tfl vo t_o : Option FileList) (ttr : Transform) (c : List EnumCall)
    (pr : List String)
    (h : resolveLists env config evaluation true = .ok (tfl, vo, t_o, ttr, c, pr)) :
    vo = (env.get_image_files_list config.data.dataset config.data.dir_path
      config.data.splits_dir).2.2 := by
  unfold resolveLists at h
  dsimp only at h
  simp at h
  split at h
  · split at h <;> simp_all
  · split at h <;> simp_all

lemma gdl_result_cases (env : Env) (config : Config) (evaluation ood_eval : Bool)
    (nw : ℕ) (inf : Bool)
    (hd : reMatchDataset (pyLower config.data.dataset) = true)
    (ho : reMatchOod (pyLower config.data.ood_ds) = true)
    (tfl vo t_o : Option FileList) (ttr : Transform) (c : List EnumCall)
    (pr : List String)
    (hR : resolveLists env config evaluation ood_eval = .ok (tfl, vo, t_o, ttr, c, pr)) :
    ((get_dataloaders env config evaluation ood_eval nw inf).result
        = .error (.assertionError none) ↔ (vo = none ∨ t_o = none))
    ∧ ((get_dataloaders env config evaluation ood_eval nw inf).result.isOk = true
        ↔ (vo ≠ none ∧ t_o ≠ none)) := by
  rw [get_dataloaders_eq env config evaluation ood_eval nw inf hd ho, hR]
  cases vo <;> cases t_o <;> simp [Except.isOk, Except.toBool]

/-- Counterexample to C1 as stated: in OOD mode with distinct enumeration
components, the eval (inlier) dataset is built from the third component of
the triple, not the second. -/
theorem c1_counterexample :
    (get_dataloaders envA cfgA false true 0 false).result.map (fun o => o.eval_ds.data)
      = .ok ["te1", "te2"]
    ∧ (envA.get_image_files_list cfgA.data.dataset cfgA.data.dir_path
        cfgA.data.splits_dir).2.1 = some ["va1"]
    ∧ (["te1", "te2"] : FileList) ≠ ["va1"] :=
  ⟨by decide, by decide, by decide⟩

/-- C1 amended: in every successful OOD-evaluation run, the validation file
list used to build the eval dataset is the third component (the test list)
of the triple the enumeration collaborator returns for the configured
dataset name. -/
theorem c1_ood_inlier_list_is_test_component (env : Env) (config : Config)
    (evaluation : Bool) (nw : ℕ) (inf : Bool)
    (hok : (get_dataloaders env config evaluation true nw inf).result.isOk = true) :
    (get_dataloaders env config evaluation true nw inf).result.map
        (fun o => some o.eval_ds.data)
      = .ok ((env.get_image_files_list config.data.dataset config.data.dir_path
          config.data.splits_dir).2.2) := by
  cases hd : reMatchDataset (pyLower config.data.dataset)
  case false =>
    unfold get_dataloaders at hok
    simp [hd, Except.isOk, Except.toBool] at hok
  case true =>
  cases ho : reMatchOod (pyLower config.data.ood_ds)
  case false =>
    unfold get_dataloaders at hok
    simp [hd, ho, Except.isOk, Except.toBool] at hok
  case true =>
  rw [get_dataloaders_eq env config evaluation true nw inf hd ho] at hok ⊢
  cases hR : resolveLists env config evaluation true with
  | error p =>
    obtain ⟨c, pr, er⟩ := p
    rw [hR] at hok
    simp [Except.isOk, Except.toBool] at hok
  | ok r =>
    obtain ⟨tfl, vo, t_o, ttr, c, pr⟩ := r
    have hv := resolveLists_ood_val_component env config evaluation tfl vo t_o ttr c pr hR
    rw [hR] at hok
    cases vo with
    | none => simp [Except.isOk, Except.toBool] at hok
    | some v =>
      cases t_o with
      | none => simp [Except.isOk, Except.toBool] at hok
      | some t =>
        rw [← hv]
        simp [expectedOutput, Except.map]

/-- Witness for the amended C1 at a concrete OOD run. -/
theorem c1_witness :
    (get_dataloaders envA cfgA false true 0 false).result.map
        (fun o => some o.eval_ds.data)
      = .ok ((envA.get_image_files_list cfgA.data.dataset cfgA.data.dir_path
          cfgA.data.splits_dir).2.2) :=
  c1_ood_inlier_list_is_test_component envA cfgA false 0 false (by decide)

/-- Counterexample to C2 as stated: with an enumeration collaborator that
returns empty (but present) file lists, the call returns normally — the
assertions only reject `None`, not emptiness. -/
theorem c2_counterexample :
    (get_dataloaders envEmpty cfgA true false 0 false).result.isOk = true
    ∧ (get_dataloaders envEmpty cfgA true false 0 false).result.map
        (fun o => (o.eval_ds.data, o.test_ds.data)) = .ok ([], []) :=
  ⟨by decide, by decide⟩

/-- C2 amended: in every mode the resolved validation and test file lists
are asserted to be present (not `None`); the call fails by the bare
assertion exactly when either is `None`, and returns normally exactly when
both are present — an empty list passes the assertion. -/
theorem c2_val_test_not_none_assertions (env : Env) (config : Config)
    (evaluation ood_eval : Bool) (nw : ℕ) (inf : Bool)
    (hd : reMatchDataset (pyLower config.data.dataset) = true)
    (ho : reMatchOod (pyLower config.data.ood_ds) = true)
    (hpath : ood_eval = true → strContains (pyLower config.data.ood_ds) "lesion" = true →
      env.path_exists (lesionDirPath env config) = true) :
    ((get_dataloaders env config evaluation ood_eval nw inf).result
        = .error (.assertionError none)
      ↔ ((if ood_eval then
            (env.get_image_files_list config.data.dataset config.data.dir_path
              config.data.splits_dir).2.2
          else
            (env.get_image_files_list config.data.dataset config.data.dir_path
              config.data.splits_dir).2.1) = none
        ∨ (if ood_eval then
            (if strContains (pyLower config.data.ood_ds) "lesion" then
              (env.get_image_files_list (pyLower config.data.ood_ds)
                (lesionDirPath env config) config.data.splits_dir).2.2
            else
              (env.get_image_files_list config.data.dataset config.data.dir_path
                config.data.splits_dir).2.2)
          else
            (env.get_image_files_list config.data.dataset config.data.dir_path
              config.data.splits_dir).2.2) = none))
    ∧ ((get_dataloaders env config evaluation ood_eval nw inf).result.isOk = true
      ↔ ((if ood_eval then
            (env.get_image_files_list config.data.dataset config.data.dir_path
              config.data.splits_dir).2.2
          else
            (env.get_image_files_list config.data.dataset config.data.dir_path
              config.data.splits_dir).2.1) ≠ none
        ∧ (if ood_eval then
            (if strContains (pyLower config.data.ood_ds) "lesion" then
              (env.get_image_files_list (pyLower config.data.ood_ds)
                (lesionDirPath env config) config.data.splits_dir).2.2
            else
              (env.get_image_files_list config.data.dataset config.data.dir_path
                config.data.splits_dir).2.2)
          else
            (env.get_image_files_list config.data.dataset config.data.dir_path
              config.data.splits_dir).2.2) ≠ none)) := by
  cases ood_eval
  case false =>
    simp only [Bool.false_eq_true, if_false]
    cases evaluation
    case false =>
      exact gdl_result_cases env config false false nw inf hd ho _ _ _ _ _ _
        (resolveLists_training env config)
    case true =>
      exact gdl_result_cases env config true false nw inf hd ho _ _ _ _ _ _
        (resolveLists_evaluation env config)
  case true =>
    cases hl : strContains (pyLower config.data.ood_ds) "lesion"
    case true =>
      have hp := hpath rfl hl
      have hres := resolveLists_ood_lesion env config evaluation hl
      rw [if_pos hp] at hres
      simpa [hl] using gdl_result_cases env config evaluation true nw inf hd ho
        _ _ _ _ _ _ hres
    case false =>
      by_cases ht2 : pyLower config.data.ood_ds = "tumor"
      · have hres := resolveLists_ood_tumor env config evaluation hl ht2
        simpa [hl] using gdl_result_cases env config evaluation true nw inf hd ho
          _ _ _ _ _ _ hres
      · have hres := resolveLists_ood_generic env config evaluation hl ht2
        simpa [hl] using gdl_result_cases env config evaluation true nw inf hd ho
          _ _ _ _ _ _ hres

/-- Witness for the amended C2 on a concrete evaluation-mode run. -/
theorem c2_witness :
    ((get_dataloaders envA cfgA true false 0 false).result
        = .error (.assertionError none)
      ↔ ((if false then
            (envA.get_image_files_list cfgA.data.dataset cfgA.data.dir_path
              cfgA.data.splits_dir).2.2
          else
            (envA.get_image_files_list cfgA.data.dataset cfgA.data.dir_path
              cfgA.data.splits_dir).2.1) = none
        ∨ (if false then
            (if strContains (pyLower cfgA.data.ood_ds) "lesion" then
              (envA.get_image_files_list (pyLower cfgA.data.ood_ds)
                (lesionDirPath envA cfgA) cfgA.data.splits_dir).2.2
            else
              (envA.get_image_files_list cfgA.data.dataset cfgA.data.dir_path
                cfgA.data.splits_dir).2.2)
          else
            (envA.get_image_files_list cfgA.data.dataset cfgA.data.dir_path
              cfgA.data.splits_dir).2.2) = none))
    ∧ ((get_dataloaders envA cfgA true false 0 false).result.isOk = true
      ↔ ((if false then
            (envA.get_image_files_list cfgA.data.dataset cfgA.data.dir_path
              cfgA.data.splits_dir).2.2
          else
            (envA.get_image_files_list cfgA.data.dataset cfgA.data.dir_path
              cfgA.data.splits_dir).2.1) ≠ none
        ∧ (if false then
            (if strContains (pyLower cfgA.data.ood_ds) "lesion" then
              (envA.get_image_files_list (pyLower cfgA.data.ood_ds)
                (lesionDirPath envA cfgA) cfgA.data.splits_dir).2.2
            else
              (envA.get_image_files_list cfgA.data.dataset cfgA.data.dir_path
                cfgA.data.splits_dir).2.2)
          else
            (envA.get_image_files_list cfgA.data.dataset cfgA.data.dir_path
              cfgA.data.splits_dir).2.2) ≠ none)) :=
  c2_val_test_not_none_assertions envA cfgA true false 0 false (by decide) (by decide)
    (by intro h; simp at h)

/-- Counterexample to C3 as stated: with an empty (but present) enumerated
training file list, the training dataset is constructed (non-null) but the
returned training loader is `None`, because `if train_ds:` is Python
truthiness and an empty dataset is falsy. -/
theorem c3_counterexample :
    (get_dataloaders envTrainEmpty cfgA false false 0 false).result.map
        (fun o => (o.train_loader, o.train_ds.isSome)) = .ok (none, true) :=
  by decide

/-- C3 amended: in training mode (both flags false) with present validation
and test components, the enumeration collaborator is invoked exactly once
with the configured dataset name; the training dataset is built from the
first component whenever that component is present, and the training loader
is non-null exactly when that component is a non-empty list. -/
theorem c3_training_mode_single_call (env : Env) (config : Config) (nw : ℕ)
    (inf : Bool)
    (hd : reMatchDataset (pyLower config.data.dataset) = true)
    (ho : reMatchOod (pyLower config.data.ood_ds) = true)
    (hv : (env.get_image_files_list config.data.dataset config.data.dir_path
      config.data.splits_dir).2.1 ≠ none)
    (ht : (env.get_image_files_list config.data.dataset config.data.dir_path
      config.data.splits_dir).2.2 ≠ none) :
    (get_dataloaders env config false false nw inf).calls
        = [(config.data.dataset, config.data.dir_path, config.data.splits_dir)]
    ∧ (get_dataloaders env config false false nw inf).result.map
        (fun o => o.train_ds.map CacheDataset.data)
      = .ok (env.get_image_files_list config.data.dataset config.data.dir_path
          config.data.splits_dir).1
    ∧ (get_dataloaders env config false false nw inf).result.map
        (fun o => o.train_loader.isSome)
      = .ok (!((env.get_image_files_list config.data.dataset config.data.dir_path
          config.data.splits_dir).1.getD []).isEmpty) := by
  obtain ⟨v, hv'⟩ := Option.ne_none_iff_exists'.mp hv
  obtain ⟨t, ht'⟩ := Option.ne_none_iff_exists'.mp ht
  rw [get_dataloaders_eq env config false false nw inf hd ho,
    resolveLists_training env config, hv', ht']
  refine ⟨rfl, ?_, ?_⟩ <;>
    cases hT1 : (env.get_image_files_list config.data.dataset config.data.dir_path
        config.data.splits_dir).1 with
    | none => simp [expectedOutput, Except.map]
    | some l => cases l <;> simp [expectedOutput, Except.map, mkTrainLoader]

/-- Witness for the amended C3 at a concrete training-mode run. -/
theorem c3_witness :
    (get_dataloaders envA cfgA false false 0 false).calls
        = [(cfgA.data.dataset, cfgA.data.dir_path, cfgA.data.splits_dir)]
    ∧ (get_dataloaders envA cfgA false false 0 false).result.map
        (fun o => o.train_ds.map CacheDataset.data)
      = .ok (envA.get_image_files_list cfgA.data.dataset cfgA.data.dir_path
          cfgA.data.splits_dir).1
    ∧ (get_dataloaders envA cfgA false false 0 false).result.map
        (fun o => o.train_loader.isSome)
      = .ok (!((envA.get_image_files_list cfgA.data.dataset cfgA.data.dir_path
          cfgA.data.splits_dir).1.getD []).isEmpty) :=
  c3_training_mode_single_call envA cfgA 0 false (by decide) (by decide)
    (by decide) (by decide)

/-- Counterexample to C4 as stated: with pairwise distinct enumeration
components and OOD name `tumor`, the test file list is the third (test)
component, not the dataset's full file list. -/
theorem c4_counterexample :
    (get_dataloaders envDistinct cfgA false true 0 false).result.map
        (fun o => (o.test_ds.data, o.test_ds.transform))
      = .ok (["c"], Transform.tumor cfgA)
    ∧ ((envDistinct.get_image_files_list cfgA.data.dataset cfgA.data.dir_path
          cfgA.data.splits_dir).1.getD []
        ++ (envDistinct.get_image_files_list cfgA.data.dataset cfgA.data.dir_path
          cfgA.data.splits_dir).2.1.getD []
        ++ (envDistinct.get_image_files_list cfgA.data.dataset cfgA.data.dir_path
          cfgA.data.splits_dir).2.2.getD []) = ["a", "b", "c"]
    ∧ (["c"] : FileList) ≠ ["a", "b", "c"] :=
  ⟨by decide, by decide, by decide⟩

/-- C4 amended: in every successful OOD run whose OOD name does not contain
"lesion", the test file list equals the third (test-split) component of the
primary dataset's triple; the tumor transform is used exactly when the
lowered OOD name is "tumor", and the validation transform otherwise. -/
theorem c4_ood_nonlesion_test_split (env : Env) (config : Config)
    (evaluation : Bool) (nw : ℕ) (inf : Bool)
    (hl : strContains (pyLower config.data.ood_ds) "lesion" = false)
    (hok : (get_dataloaders env config evaluation true nw inf).result.isOk = true) :
    (get_dataloaders env config evaluation true nw inf).result.map
        (fun o => some o.test_ds.data)
      = .ok ((env.get_image_files_list config.data.dataset config.data.dir_path
          config.data.splits_dir).2.2)
    ∧ (get_dataloaders env config evaluation true nw inf).result.map
        (fun o => o.test_ds.transform)
      = .ok (if pyLower config.data.ood_ds = "tumor" then Transform.tumor config
          else Transform.val config) := by
  cases hd : reMatchDataset (pyLower config.data.dataset)
  case false =>
    unfold get_dataloaders at hok
    simp [hd, Except.isOk, Except.toBool] at hok
  case true =>
  cases ho : reMatchOod (pyLower config.data.ood_ds)
  case false =>
    unfold get_dataloaders at hok
    simp [hd, ho, Except.isOk, Except.toBool] at hok
  case true =>
  rw [get_dataloaders_eq env config evaluation true nw inf hd ho] at hok ⊢
  by_cases ht2 : pyLower config.data.ood_ds = "tumor"
  · rw [resolveLists_ood_tumor env config evaluation hl ht2] at hok ⊢
    cases hvv : (env.get_image_files_list config.data.dataset config.data.dir_path
        config.data.splits_dir).2.2 with
    | none => rw [hvv] at hok; simp [Except.isOk, Except.toBool] at hok
    | some t => simp [expectedOutput, Except.map, ht2]
  · rw [resolveLists_ood_generic env config evaluation hl ht2] at hok ⊢
    cases hvv : (env.get_image_files_list config.data.dataset config.data.dir_path
        config.data.splits_dir).2.2 with
    | none => rw [hvv] at hok; simp [Except.isOk, Except.toBool] at hok
    | some t => simp [expectedOutput, Except.map, ht2]

/-- Witness for the amended C4 at a concrete tumor-OOD run. -/
theorem c4_witness :
    (get_dataloaders envA cfgA false true 0 false).result.map
        (fun o => some o.test_ds.data)
      = .ok ((envA.get_image_files_list cfgA.data.dataset cfgA.data.dir_path
          cfgA.data.splits_dir).2.2)
    ∧ (get_dataloaders envA cfgA false true 0 false).result.map
        (fun o => o.test_ds.transform)
      = .ok (if pyLower cfgA.data.ood_ds = "tumor" then Transform.tumor cfgA
          else Transform.val cfgA) :=
  c4_ood_nonlesion_test_split envA cfgA false 0 false (by decide) (by decide)

/-- C5: with an OOD name containing "lesion", the test file list is
enumerated from `lesionDirPath` — `abspath(data_dir_path + "/..")` joined
with `slicer_lesions/<ood name>/<dataset name>`, i.e. the normalised form of
`<data_dir_path>/../slicer_lesions/<ood_name>/<dataset_name>` — with the
lesion (mask-loading) transform, after printing a diagnostic; if that
directory does not exist the call fails by assertion with a message naming
the directory, before any enumeration call. -/
theorem c5_lesion_ood_directory (env : Env) (config : Config)
    (evaluation : Bool) (nw : ℕ) (inf : Bool)
    (hd : reMatchDataset (pyLower config.data.dataset) = true)
    (ho : reMatchOod (pyLower config.data.ood_ds) = true)
    (hl : strContains (pyLower config.data.ood_ds) "lesion" = true) :
    (env.path_exists (lesionDirPath env config) = false →
      (get_dataloaders env config evaluation true nw inf).result
          = .error (.assertionError (some (lesionDirPath env config ++ " does not exist")))
      ∧ (get_dataloaders env config evaluation true nw inf).calls = []
      ∧ (get_dataloaders env config evaluation true nw inf).prints
          = ["Loading ood samples from " ++ lesionDirPath env config])
    ∧ ((get_dataloaders env config evaluation true nw inf).result.isOk = true →
      (get_dataloaders env config evaluation true nw inf).calls
          = [(pyLower config.data.ood_ds, lesionDirPath env config, config.data.splits_dir),
             (config.data.dataset, config.data.dir_path, config.data.splits_dir)]
      ∧ (get_dataloaders env config evaluation true nw inf).result.map
          (fun o => some o.test_ds.data)
        = .ok ((env.get_image_files_list (pyLower config.data.ood_ds)
            (lesionDirPath env config) config.data.splits_dir).2.2)
      ∧ (get_dataloaders env config evaluation true nw inf).result.map
          (fun o => o.test_ds.transform) = .ok (Transform.lesion config)
      ∧ (get_dataloaders env config evaluation true nw inf).prints
          = ["Loading ood samples from " ++ lesionDirPath env config]) := by
  rw [get_dataloaders_eq env config evaluation true nw inf hd ho,
    resolveLists_ood_lesion env config evaluation hl]
  cases hp : env.path_exists (lesionDirPath env config)
  case false =>
    simp [Except.isOk, Except.toBool]
  case true =>
    simp only [if_true]
    refine ⟨fun hcontra => by simp at hcontra, fun hok => ?_⟩
    cases hvv : (env.get_image_files_list config.data.dataset config.data.dir_path
        config.data.splits_dir).2.2 with
    | none => rw [hvv] at hok; simp [Except.isOk, Except.toBool] at hok
    | some v =>
      rw [hvv] at hok
      cases htt : (env.get_image_files_list (pyLower config.data.ood_ds)
          (lesionDirPath env config) config.data.splits_dir).2.2 with
      | none => rw [htt] at hok; simp [Except.isOk, Except.toBool] at hok
      | some t => simp [expectedOutput, Except.map]

/-- Witness for C5: a concrete lesion-OOD run against a filesystem where the
lesion directory is absent. -/
theorem c5_witness :
    (envNoPath.path_exists (lesionDirPath envNoPath cfgLes) = false →
      (get_dataloaders envNoPath cfgLes false true 0 false).result
          = .error (.assertionError
              (some (lesionDirPath envNoPath cfgLes ++ " does not exist")))
      ∧ (get_dataloaders envNoPath cfgLes false true 0 false).calls = []
      ∧ (get_dataloaders envNoPath cfgLes false true 0 false).prints
          = ["Loading ood samples from " ++ lesionDirPath envNoPath cfgLes])
    ∧ ((get_dataloaders envNoPath cfgLes false true 0 false).result.isOk = true →
      (get_dataloaders envNoPath cfgLes false true 0 false).calls
          = [(pyLower cfgLes.data.ood_ds, lesionDirPath envNoPath cfgLes,
              cfgLes.data.splits_dir),
             (cfgLes.data.dataset, cfgLes.data.dir_path, cfgLes.data.splits_dir)]
      ∧ (get_dataloaders envNoPath cfgLes false true 0 false).result.map
          (fun o => some o.test_ds.data)
        = .ok ((envNoPath.get_image_files_list (pyLower cfgLes.data.ood_ds)
            (lesionDirPath envNoPath cfgLes) cfgLes.data.splits_dir).2.2)
      ∧ (get_dataloaders envNoPath cfgLes false true 0 false).result.map
          (fun o => o.test_ds.transform) = .ok (Transform.lesion cfgLes)
      ∧ (get_dataloaders envNoPath cfgLes false true 0 false).prints
          = ["Loading ood samples from " ++ lesionDirPath envNoPath cfgLes]) :=
  c5_lesion_ood_directory envNoPath cfgLes false 0 false (by decide) (by decide)
    (by decide)

/-- C6: a dataset name whose lowering does not match the anchored pattern
`(abcd|ibis)` fails the first assertion, and an OOD name whose lowering does
not match `(tumor|lesion|ds-sa)` fails the second, in both cases before any
file-enumeration call and with nothing printed. -/
theorem c6_invalid_names_fail_before_enumeration (env : Env) (config : Config)
    (evaluation ood_eval : Bool) (nw : ℕ) (inf : Bool)
    (h : reMatchDataset (pyLower config.data.dataset) = false ∨
         reMatchOod (pyLower config.data.ood_ds) = false) :
    get_dataloaders env config evaluation ood_eval nw inf =
      { calls := [], prints := [], result := .error (.assertionError none) } := by
  unfold get_dataloaders
  rcases h with h | h <;> simp [h]

/-- Witness for C6 at a concrete invalid dataset name. -/
theorem c6_witness :
    get_dataloaders envA cfgBad false false 0 false =
      { calls := [], prints := [], result := .error (.assertionError none) } :=
  c6_invalid_names_fail_before_enumeration envA cfgBad false false 0 false
    (Or.inl (by decide))

/-- C7: with `evaluation=True` the returned training loader and training
dataset are both `None`, and `ood_eval=True` takes precedence over
`evaluation=True`: the run is identical to the pure OOD-evaluation run. -/
theorem c7_evaluation_null_training_ood_precedence (env : Env) (config : Config)
    (ood_eval : Bool) (nw : ℕ) (inf : Bool)
    (hok : (get_dataloaders env config true ood_eval nw inf).result.isOk = true) :
    (get_dataloaders env config true ood_eval nw inf).result.map
        (fun o => (o.train_loader, o.train_ds)) = .ok (none, none)
    ∧ get_dataloaders env config true true nw inf
        = get_dataloaders env config false true nw inf := by
  refine ⟨?_, rfl⟩
  cases hd : reMatchDataset (pyLower config.data.dataset)
  case false => unfold get_dataloaders at hok; simp [hd, Except.isOk, Except.toBool] at hok
  case true =>
  cases ho : reMatchOod (pyLower config.data.ood_ds)
  case false => unfold get_dataloaders at hok; simp [hd, ho, Except.isOk, Except.toBool] at hok
  case true =>
  rw [get_dataloaders_eq env config true ood_eval nw inf hd ho] at hok ⊢
  cases hR : resolveLists env config true ood_eval with
  | error p => obtain ⟨c, pr, er⟩ := p; rw [hR] at hok; simp [Except.isOk, Except.toBool] at hok
  | ok r =>
    obtain ⟨tfl, vo, t_o, ttr, c, pr⟩ := r
    have htfl : tfl = none :=
      resolveLists_no_train env config true ood_eval (Or.inr rfl) _ _ _ _ _ _ hR
    subst htfl
    cases vo <;> cases t_o <;> simp_all [expectedOutput, Except.isOk, Except.toBool, Except.map]

/-- Witness for C7: concrete evaluation-plus-OOD run. -/
theorem c7_witness :
    (get_dataloaders envA cfgA true true 0 false).result.map
        (fun o => (o.train_loader, o.train_ds)) = .ok (none, none)
    ∧ get_dataloaders envA cfgA true true 0 false
        = get_dataloaders envA cfgA false true 0 false :=
  c7_evaluation_null_training_ood_precedence envA cfgA true 0 false (by decide)

/-- C8: every constructed training loader carries the training batch size,
default (no) shuffling, pinned memory, prefetch depth 2, persistent workers
iff the worker count is positive, and the infinite sampler exactly when
requested; the eval and test loaders carry the evaluation batch size, no
shuffling, pinning iff the worker count is positive, and the same optional
infinite-sampler override. -/
theorem c8_loader_configuration (env : Env) (config : Config)
    (evaluation ood_eval : Bool) (nw : ℕ) (inf : Bool)
    (hok : (get_dataloaders env config evaluation ood_eval nw inf).result.isOk = true) :
    (∀ tl, (get_dataloaders env config evaluation ood_eval nw inf).result.map
        (fun o => o.train_loader) = .ok (some tl) →
      tl.batch_size = config.training.batch_size ∧ tl.shuffle = false
      ∧ tl.pin_memory = true ∧ tl.prefetch_factor = some 2
      ∧ tl.persistent_workers = decide (0 < nw)
      ∧ tl.sampler = (if inf then some (mkInfSampler tl.dataset) else none))
    ∧ (get_dataloaders env config evaluation ood_eval nw inf).result.map
        (fun o => (o.eval_loader.batch_size, o.eval_loader.shuffle,
          o.eval_loader.pin_memory, o.eval_loader.sampler))
      = (get_dataloaders env config evaluation ood_eval nw inf).result.map
        (fun o => (config.eval.batch_size, false, decide (0 < nw),
          if inf then some (mkInfSampler o.eval_ds) else none))
    ∧ (get_dataloaders env config evaluation ood_eval nw inf).result.map
        (fun o => (o.test_loader.batch_size, o.test_loader.shuffle,
          o.test_loader.pin_memory, o.test_loader.sampler))
      = (get_dataloaders env config evaluation ood_eval nw inf).result.map
        (fun o => (config.eval.batch_size, false, decide (0 < nw),
          if inf then some (mkInfSampler o.test_ds) else none)) := by
  cases hd : reMatchDataset (pyLower config.data.dataset)
  case false =>
    unfold get_dataloaders at hok
    simp [hd, Except.isOk, Except.toBool] at hok
  case true =>
  cases ho : reMatchOod (pyLower config.data.ood_ds)
  case false =>
    unfold get_dataloaders at hok
    simp [hd, ho, Except.isOk, Except.toBool] at hok
  case true =>
  rw [get_dataloaders_eq env config evaluation ood_eval nw inf hd ho] at hok ⊢
  cases hR : resolveLists env config evaluation ood_eval with
  | error p =>
    obtain ⟨c, pr, er⟩ := p
    rw [hR] at hok
    simp [Except.isOk, Except.toBool] at hok
  | ok r =>
    obtain ⟨tfl, vo, t_o, ttr, c, pr⟩ := r
    rw [hR] at hok
    cases vo with
    | none => simp [Except.isOk, Except.toBool] at hok
    | some v =>
      cases t_o with
      | none => simp [Except.isOk, Except.toBool] at hok
      | some t =>
        refine ⟨?_, by simp [expectedOutput, mkEvalLoader, Except.map],
          by simp [expectedOutput, mkEvalLoader, Except.map]⟩
        intro tl htl
        cases tfl with
        | none => simp [expectedOutput, Except.map] at htl
        | some l =>
          by_cases hlen : l.length = 0
          · simp [expectedOutput, Except.map, hlen] at htl
          · simp [expectedOutput, Except.map, hlen] at htl
            subst htl
            simp [mkTrainLoader]

/-- Witness for C8 at a concrete training run with two workers and the
infinite sampler enabled. -/
theorem c8_witness :
    (trainLoaderW.batch_size = cfgA.training.batch_size ∧ trainLoaderW.shuffle = false
      ∧ trainLoaderW.pin_memory = true ∧ trainLoaderW.prefetch_factor = some 2
      ∧ trainLoaderW.persistent_workers = decide (0 < 2)
      ∧ trainLoaderW.sampler
          = (if true then some (mkInfSampler trainLoaderW.dataset) else none))
    ∧ (get_dataloaders envA cfgA false false 2 true).result.map
        (fun o => (o.eval_loader.batch_size, o.eval_loader.shuffle,
          o.eval_loader.pin_memory, o.eval_loader.sampler))
      = (get_dataloaders envA cfgA false false 2 true).result.map
        (fun o => (cfgA.eval.batch_size, false, decide (0 < 2),
          if true then some (mkInfSampler o.eval_ds) else none))
    ∧ (get_dataloaders envA cfgA false false 2 true).result.map
        (fun o => (o.test_loader.batch_size, o.test_loader.shuffle,
          o.test_loader.pin_memory, o.test_loader.sampler))
      = (get_dataloaders envA cfgA false false 2 true).result.map
        (fun o => (cfgA.eval.batch_size, false, decide (0 < 2),
          if true then some (mkInfSampler o.test_ds) else none)) :=
  ⟨(c8_loader_configuration envA cfgA false false 2 true (by decide)).1
      trainLoaderW (by decide),
   (c8_loader_configuration envA cfgA false false 2 true (by decide)).2.1,
   (c8_loader_configuration envA cfgA false false 2 true (by decide)).2.2⟩

/-- Counterexample to C9 as stated: `training.log_freq` lies outside the
claim's fixed override set (batch sizes, precision flag, block count,
context-embedding sizes, patch sub-configurations), yet `get_config` changes
it from 100 to 5. -/
theorem c9_counterexample :
    (get_config c9Base).training.log_freq = 5
    ∧ c9Base.training.log_freq = 100
    ∧ (5 : ℕ) ≠ 100 :=
  ⟨rfl, rfl, by decide⟩

/-- C9 amended: `get_config` returns the base configuration with exactly
these overrides — training batch size 64, logging frequency 5, fp16 on,
eval batch size 64, flow base distribution, block count 20, context- and
global-embedding sizes 128/512, global-context on, input-norm off, patch
batch size 32, patches per train step 256, training kimg 50, and the two
freshly built patch-geometry sub-configurations — while every other field
of the base is returned unchanged; it takes no other input and has no
failure path. -/
theorem c9_get_config_characterisation (base : FlowFullConfig) :
    get_config base =
      { training := { batch_size := 64, log_freq := 5, use_fp16 := true,
                      extra := base.training.extra },
        eval := { batch_size := 64, extra := base.eval.extra },
        flow := { base_distribution := "multivariate_normal", num_blocks := 20,
                  context_embedding_size := 128, use_global_context := true,
                  global_embedding_size := 512, input_norm := false,
                  patch_batch_size := 32, patches_per_train_step := 256,
                  training_kimg := 50,
                  local_patch_config := some { kernel_size := 3, padding := 1, stride := 1 },
                  global_patch_config := some { kernel_size := 17, padding := 0, stride := 8 },
                  extra := base.flow.extra },
        extra := base.extra } :=
  rfl

/-- C10: with `infinite_sampler=False` the never-assigned `inf_sampler`
local is never evaluated (every use is guarded by the flag), so the call
never raises an unbound-local error, and every loader that is constructed
has `sampler = None`. -/
theorem c10_disabled_sampler_never_unbound (env : Env) (config : Config)
    (evaluation ood_eval : Bool) (nw : ℕ) :
    isNameErr (get_dataloaders env config evaluation ood_eval nw false).result = false
    ∧ (get_dataloaders env config evaluation ood_eval nw false).result.map
        (fun o => (o.train_loader.map DataLoaderS.sampler, o.eval_loader.sampler,
          o.test_loader.sampler))
      = (get_dataloaders env config evaluation ood_eval nw false).result.map
        (fun o => (o.train_loader.map (fun _ => (none : Option RandomSamplerS)),
          none, none)) := by
  cases hd : reMatchDataset (pyLower config.data.dataset)
  case false =>
    unfold get_dataloaders
    simp [hd, isNameErr, Except.map]
  case true =>
  cases ho : reMatchOod (pyLower config.data.ood_ds)
  case false =>
    unfold get_dataloaders
    simp [hd, ho, isNameErr, Except.map]
  case true =>
  rw [get_dataloaders_eq env config evaluation ood_eval nw false hd ho]
  cases hR : resolveLists env config evaluation ood_eval with
  | error p =>
    obtain ⟨c, pr, er⟩ := p
    obtain ⟨m, hm⟩ := resolveLists_err_shape env config evaluation ood_eval c pr er hR
    subst hm
    simp [isNameErr, Except.map]
  | ok r =>
    obtain ⟨tfl, vo, t_o, ttr, c, pr⟩ := r
    cases vo <;> cases t_o <;> cases tfl <;>
      simp [isNameErr, expectedOutput, mkTrainLoader, mkEvalLoader, Except.map]
    split <;> simp

end Sade
